import Mathlib

/-!
Verification development for the memva repository scripts.

The repository consists of six independent Python scripts:
`random_gen.py`, `randomnum.py`, `test.py` (the `RandomDataGenerator`
class), and three small neural-network demos
(`neural_network_simple_demo.py`, `pure_python_nn.py`,
`simple_neural_network.py`).

This file gives a shallow embedding of the parts of those scripts that the
specification makes claims about, and proves or refutes each claim.

Modelling conventions:
* Python machine floats are modelled by `ℚ` where the code only compares and
  adds exact decimal values, and by `ℝ` (with `Real.exp`) for the
  neural-network arithmetic.
* Calls into the Python standard library that are sources of randomness
  (`random.*`, `secrets.*`, `datetime.now`) are modelled as explicit stream /
  oracle parameters, so that the data flow of the scripts is preserved while
  the ambient randomness is made explicit.
* `hashlib.sha256(...).hexdigest()` is modelled by a full executable SHA-256
  implementation over `Nat` (`sha256Hex` below), so that hash-related claims
  are about the real function.  Strings are assumed ASCII (code point =
  UTF-8 byte), which holds for every string the scripts hash.
* `json.dumps(entry, sort_keys=True)` is modelled as an abstract
  serialization parameter, since its output is an opaque string whose only
  relevant property is which data it depends on.
-/

/-! ### An executable SHA-256 over `Nat`

Model of Python `hashlib.sha256(x.encode()).hexdigest()` (used by
`test.py` in `generate_blockchain_audit_trail`). -/

/-- Truncate to a 32-bit word. -/
def w32 (n : Nat) : Nat := n % 4294967296

/-- Right rotation of a 32-bit word. -/
def rotr (n x : Nat) : Nat := w32 ((x >>> n) ||| (x <<< (32 - n)))

/-- Bitwise complement of a 32-bit word. -/
def wnot (x : Nat) : Nat := x ^^^ 4294967295

/-- SHA-256 round constants. -/
def sha256K : List Nat :=
  [1116352408, 1899447441, 3049323471, 3921009573, 961987163, 1508970993,
   2453635748, 2870763221, 3624381080, 310598401, 607225278, 1426881987,
   1925078388, 2162078206, 2614888103, 3248222580, 3835390401, 4022224774,
   264347078, 604807628, 770255983, 1249150122, 1555081692, 1996064986,
   2554220882, 2821834349, 2952996808, 3210313671, 3336571891, 3584528711,
   113926993, 338241895, 666307205, 773529912, 1294757372, 1396182291,
   1695183700, 1986661051, 2177026350, 2456956037, 2730485921, 2820302411,
   3259730800, 3345764771, 3516065817, 3600352804, 4094571909, 275423344,
   430227734, 506948616, 659060556, 883997877, 958139571, 1322822218,
   1537002063, 1747873779, 1955562222, 2024104815, 2227730452, 2361852424,
   2428436474, 2756734187, 3204031479, 3329325298]

/-- SHA-256 initial hash state. -/
def sha256H0 : List Nat :=
  [1779033703, 3144134277, 1013904242, 2773480762,
   1359893119, 2600822924, 528734635, 1541459225]

/-- Big-endian byte decomposition, `k` bytes. -/
def beBytes (k n : Nat) : List Nat :=
  (List.range k).map (fun i => (n >>> (8 * (k - 1 - i))) % 256)

/-- SHA-256 message padding: append `0x80`, zero bytes, and the 64-bit bit
length, reaching a multiple of 64 bytes. -/
def padBytes (msg : List Nat) : List Nat :=
  let len := msg.length
  let zeros := (55 + 64 - len % 64) % 64
  msg ++ [128] ++ List.replicate zeros 0 ++ beBytes 8 (8 * len)

/-- Split a list into 64-byte chunks (fuel-based structural recursion so that
the kernel can evaluate it). -/
def chunks64Go : Nat → List Nat → List (List Nat)
  | 0, _ => []
  | _, [] => []
  | fuel + 1, l => l.take 64 :: chunks64Go fuel (l.drop 64)

/-- Split a list into 64-byte chunks. -/
def chunks64 (l : List Nat) : List (List Nat) := chunks64Go l.length l

/-- Combine four bytes into a big-endian 32-bit word. -/
def wordOfBytes : List Nat → Nat
  | [a, b, c, d] => (a <<< 24) ||| (b <<< 16) ||| (c <<< 8) ||| d
  | _ => 0

/-- The first sixteen 32-bit words of a 64-byte chunk. -/
def initialWords (chunk : List Nat) : List Nat :=
  (List.range 16).map (fun i => wordOfBytes ((chunk.drop (4 * i)).take 4))

/-- Extend the 16-word message schedule by the given number of words. -/
def extendWords (w : List Nat) : Nat → List Nat
  | 0 => w
  | t + 1 =>
    let i := w.length
    let wm15 := w.getD (i - 15) 0
    let wm2 := w.getD (i - 2) 0
    let s0 := (rotr 7 wm15) ^^^ (rotr 18 wm15) ^^^ (wm15 >>> 3)
    let s1 := (rotr 17 wm2) ^^^ (rotr 19 wm2) ^^^ (wm2 >>> 10)
    extendWords (w ++ [w32 (w.getD (i - 16) 0 + s0 + w.getD (i - 7) 0 + s1)]) t

/-- One round of the SHA-256 compression function. -/
def compressRound (st : List Nat) (kw : Nat × Nat) : List Nat :=
  match st with
  | [a, b, c, d, e, f, g, h] =>
    let s1 := (rotr 6 e) ^^^ (rotr 11 e) ^^^ (rotr 25 e)
    let ch := (e &&& f) ^^^ ((wnot e) &&& g)
    let t1 := w32 (h + s1 + ch + kw.1 + kw.2)
    let s0 := (rotr 2 a) ^^^ (rotr 13 a) ^^^ (rotr 22 a)
    let mj := (a &&& b) ^^^ (a &&& c) ^^^ (b &&& c)
    let t2 := w32 (s0 + mj)
    [w32 (t1 + t2), a, b, c, w32 (d + t1), e, f, g]
  | other => other

/-- Process one 64-byte chunk, updating the 8-word hash state. -/
def processChunk (hs : List Nat) (chunk : List Nat) : List Nat :=
  let w := extendWords (initialWords chunk) 48
  let st := (sha256K.zip w).foldl compressRound hs
  (hs.zip st).map (fun p => w32 (p.1 + p.2))

/-- SHA-256 digest of a byte list, as eight 32-bit words. -/
def sha256Words (msg : List Nat) : List Nat :=
  (chunks64 (padBytes msg)).foldl processChunk sha256H0

/-- Hexadecimal rendering of one 32-bit word (8 hex characters). -/
def wordHex (n : Nat) : List Char :=
  (List.range 8).map (fun i => Nat.digitChar ((n >>> (4 * (7 - i))) % 16))

/-- Bytes of a string, assuming ASCII contents (code point = UTF-8 byte). -/
def strBytes (s : String) : List Nat := s.data.map Char.toNat

/-- SHA-256 hex digest of an ASCII string; model of Python
`hashlib.sha256(s.encode()).hexdigest()`. -/
def sha256Hex (s : String) : String :=
  String.mk (((sha256Words (strBytes s)).map wordHex).flatten)

/-- Sanity check of the SHA-256 model against the FIPS 180 test vector. -/
theorem sha256Hex_abc :
    sha256Hex "abc" = "ba7816bf8f01cfea414140de5dae2223b00361a396177a9cb410ff61f20015ad" := by
  decide

theorem compressRound_length (st : List Nat) (kw : Nat × Nat) :
    (compressRound st kw).length = st.length := by
  unfold compressRound
  split <;> simp

theorem foldl_compressRound_length (l : List (Nat × Nat)) :
    ∀ hs : List Nat, (l.foldl compressRound hs).length = hs.length := by
  induction l with
  | nil => intro hs; rfl
  | cons p l ih =>
    intro hs
    simpa [List.foldl_cons, ih] using (compressRound_length hs p)

theorem processChunk_length (hs chunk : List Nat) :
    (processChunk hs chunk).length = hs.length := by
  unfold processChunk
  simp [foldl_compressRound_length]

theorem sha256Words_length (msg : List Nat) : (sha256Words msg).length = 8 := by
  have h : ∀ (cs : List (List Nat)) (hs : List Nat),
      (cs.foldl processChunk hs).length = hs.length := by
    intro cs
    induction cs with
    | nil => intro hs; rfl
    | cons c cs ih => intro hs; simp [List.foldl_cons, ih, processChunk_length]
  unfold sha256Words
  rw [h]
  rfl

theorem wordHex_length (n : Nat) : (wordHex n).length = 8 := by
  simp [wordHex]

/-- Every SHA-256 hex digest has exactly 64 characters. -/
theorem sha256Hex_digest_length (s : String) : (sha256Hex s).data.length = 64 := by
  unfold sha256Hex
  have h8 : (sha256Words (strBytes s)).length = 8 := sha256Words_length _
  have hc : (List.length ∘ wordHex) = fun _ : Nat => 8 := funext fun n => wordHex_length n
  rw [show (String.mk (((sha256Words (strBytes s)).map wordHex).flatten)).data =
      ((sha256Words (strBytes s)).map wordHex).flatten from rfl]
  rw [List.length_flatten, List.map_map, hc, List.map_const', h8, List.sum_replicate]
  rfl

/-! ### `random_gen.py` and `randomnum.py`: the global `random` module

Python's `random` module is a process-global singleton: `random.seed`
mutates a hidden global state that every later `random.*` call reads.  We
model that state explicitly and parameterize over the PRNG itself, which is
standard-library code. -/

/-- Abstract model of the Python `random` module PRNG: a state type, the
effect of `random.seed`, and the draw functions used by the scripts.
`random.random()` returns a float in [0,1), modelled as `ℚ`;
`random.randint(a, b)` returns an integer. -/
structure RandomModel (St : Type) where
  seedFn : Nat → St
  randFloat : St → ℚ × St
  randInt : St → Nat → Nat → Nat × St

/-- `random_gen.generate_random_with_seed(seed)`: seeds the global `random`
module with `seed`, then draws one float.  Takes and returns the global
state. -/
def generate_random_with_seed {St : Type} (M : RandomModel St) (seed : Nat) (_g : St) :
    ℚ × St :=
  let g1 := M.seedFn seed
  M.randFloat g1

/-- `randomnum.generate_random_number(min_value, max_value)`: draws
`random.randint(min_value, max_value)` from the global state. -/
def generate_random_number {St : Type} (M : RandomModel St) (minValue maxValue : Nat)
    (g : St) : Nat × St :=
  M.randInt g minValue maxValue

/-- `test.RandomDataGenerator.__init__(seed)`: reseeds the global `random`
module when `seed` is truthy (Python `if seed:` is false for `None` and for
`0`). -/
def randomDataGeneratorInit {St : Type} (M : RandomModel St) (seed : Option Nat)
    (g : St) : St :=
  match seed with
  | none => g
  | some s => if s ≠ 0 then M.seedFn s else g

/-- `pure_python_nn.__main__`: `random.seed(42)` before running the demo. -/
def purePythonNNMainSeed {St : Type} (M : RandomModel St) (_g : St) : St :=
  M.seedFn 42

/-- Import lists of the six source files (standard-library and third-party
modules only), as written in the sources, including function-local imports. -/
def importsOf : String → List String
  | "neural_network_simple_demo" => ["numpy"]
  | "pure_python_nn" => ["random", "math"]
  | "random_gen" => ["random"]
  | "randomnum" => ["random"]
  | "simple_neural_network" => ["numpy", "matplotlib.pyplot", "typing"]
  | "test" => ["random", "string", "secrets", "datetime", "typing", "collections",
               "statistics", "hashlib", "json", "math"]
  | _ => []

/-- The module names of the repository's own source files. -/
def repoModules : List String :=
  ["neural_network_simple_demo", "pure_python_nn", "random_gen", "randomnum",
   "simple_neural_network", "test"]

/-- A concrete toy instance of the PRNG model, used to exhibit the shared
global `random` state: the state is a counter, seeding sets it, and each
draw reads and increments it. -/
def toyRandom : RandomModel Nat :=
  { seedFn := fun s => s
  , randFloat := fun g => ((g : ℚ), g + 1)
  , randInt := fun g a b => (a + g % (b + 1 - a), g + 1) }

/-- C10: `generate_random_with_seed` is a deterministic function of its seed:
its result (both the returned float and the resulting PRNG state) does not
depend on the incoming global state, because the call reseeds before
drawing.  Holds for every PRNG model. -/
theorem generate_random_with_seed_deterministic {St : Type} (M : RandomModel St)
    (s : Nat) (g g' : St) :
    (generate_random_with_seed M s g).1 = (generate_random_with_seed M s g').1 ∧
    (generate_random_with_seed M s g).2 = (generate_random_with_seed M s g').2 := by
  exact ⟨rfl, rfl⟩

/-- C5 counterexample: under Python module semantics the `random` module
state is a process-global singleton, and the output of
`randomnum.generate_random_number` does depend on state mutated by
`random_gen.generate_random_with_seed`: running the latter first changes the
former's output (here in a concrete toy PRNG instance, from 1 to 44). -/
theorem shared_random_state_observable :
    (generate_random_number toyRandom 1 100
        (generate_random_with_seed toyRandom 42 0).2).1 ≠
      (generate_random_number toyRandom 1 100 0).1 := by
  decide

/-- C5 (amended): no source file imports another source file of the
repository (all imports are standard-library or third-party modules), and
the value returned by `generate_random_with_seed` is independent of the
incoming global `random` state, since it reseeds first.  The stronger frame
claim fails: the global `random` state is shared, and mutating it does
change `randomnum`'s outputs (see the counterexample above); isolation in
practice comes only from each script running as its own process. -/
theorem no_cross_imports_and_seed_value_independent :
    (repoModules.all (fun f =>
      (importsOf f).all (fun m => !(repoModules.contains m)))) = true ∧
    ∀ (St : Type) (M : RandomModel St) (s : Nat) (g g' : St),
      (generate_random_with_seed M s g).1 = (generate_random_with_seed M s g').1 := by
  exact ⟨by decide, fun St M s g g' => rfl⟩

/-! ### `test.py`: `RandomDataGenerator.generate_password`

`secrets.choice` is modelled by an arbitrary stream of draw indices
(`choiceIdx`), reduced modulo the alphabet size; `secrets.SystemRandom().shuffle`
by an arbitrary permutation-producing function. -/

/-- Consecutive ASCII characters from code `a` to code `b`. -/
def asciiRange (a b : Nat) : List Char :=
  (List.range (b + 1 - a)).map (fun i => Char.ofNat (a + i))

/-- Python `string.ascii_uppercase`. -/
def ascii_uppercase : List Char := asciiRange 65 90

/-- Python `string.ascii_lowercase`. -/
def ascii_lowercase : List Char := asciiRange 97 122

/-- Python `string.ascii_letters` (lowercase then uppercase). -/
def ascii_letters : List Char := ascii_lowercase ++ ascii_uppercase

/-- Python `string.digits`. -/
def string_digits : List Char := asciiRange 48 57

/-- Python `string.punctuation` (ASCII 33-47, 58-64, 91-96, 123-126). -/
def string_punctuation : List Char :=
  asciiRange 33 47 ++ asciiRange 58 64 ++ asciiRange 91 96 ++ asciiRange 123 126

/-- One `secrets.choice(alphabet)` draw, selected by the stream value `k`. -/
def secretsChoice (l : List Char) (k : Nat) : Char := l.getD (k % l.length) ' '

/-- `RandomDataGenerator.generate_password(length, min_uppercase, min_digits,
min_symbols)`: raises `ValueError` (modelled as `Except.error`) when the
length cannot accommodate the requirements; otherwise builds the required
uppercase/digit/symbol characters, fills the rest from all character groups,
and shuffles. -/
def generate_password (choiceIdx : Nat → Nat) (shuffle : List Char → List Char)
    (length min_uppercase min_digits min_symbols : Nat) : Except String String :=
  if length < min_uppercase + min_digits + min_symbols then
    .error "Password length too short for requirements"
  else
    let upChars := (List.range min_uppercase).map
      (fun i => secretsChoice ascii_uppercase (choiceIdx i))
    let digChars := (List.range min_digits).map
      (fun i => secretsChoice string_digits (choiceIdx (min_uppercase + i)))
    let symChars := (List.range min_symbols).map
      (fun i => secretsChoice string_punctuation (choiceIdx (min_uppercase + min_digits + i)))
    let all_chars := ascii_letters ++ string_digits ++ string_punctuation
    let remaining := length - (min_uppercase + min_digits + min_symbols)
    let fillChars := (List.range remaining).map
      (fun i => secretsChoice all_chars
        (choiceIdx (min_uppercase + min_digits + min_symbols + i)))
    let password_chars := upChars ++ digChars ++ symChars ++ fillChars
    .ok (String.mk (shuffle password_chars))

/-- ASCII uppercase-letter test. -/
def isUpperChar (c : Char) : Bool := 65 ≤ c.toNat && c.toNat ≤ 90

/-- ASCII digit test. -/
def isDigitChar (c : Char) : Bool := 48 ≤ c.toNat && c.toNat ≤ 57

/-- Membership in Python `string.punctuation`. -/
def isPunctChar (c : Char) : Bool := string_punctuation.contains c

theorem secretsChoice_mem (l : List Char) (hl : l ≠ []) (k : Nat) :
    secretsChoice l k ∈ l := by
  unfold secretsChoice
  have hpos : 0 < l.length := List.length_pos.mpr hl
  have hlt : k % l.length < l.length := Nat.mod_lt _ hpos
  rw [List.getD_eq_getElem _ _ hlt]
  exact List.getElem_mem hlt

theorem mem_ascii_uppercase_isUpper : ∀ c ∈ ascii_uppercase, isUpperChar c = true := by
  decide

theorem mem_string_digits_isDigit : ∀ c ∈ string_digits, isDigitChar c = true := by
  decide

theorem mem_string_punctuation_isPunct : ∀ c ∈ string_punctuation, isPunctChar c = true := by
  decide

/-- C6: `generate_password` raises `ValueError` exactly when
`length < min_uppercase + min_digits + min_symbols`; otherwise it returns a
password of exactly `length` characters containing at least `min_uppercase`
ASCII uppercase letters, at least `min_digits` digits, and at least
`min_symbols` punctuation characters — for every draw stream and every
shuffle that permutes its input. -/
theorem generate_password_spec (choiceIdx : Nat → Nat) (shuffle : List Char → List Char)
    (hshuffle : ∀ l, List.Perm (shuffle l) l)
    (length min_uppercase min_digits min_symbols : Nat) :
    ((length < min_uppercase + min_digits + min_symbols) ↔
      generate_password choiceIdx shuffle length min_uppercase min_digits min_symbols =
        .error "Password length too short for requirements") ∧
    ∀ pw, generate_password choiceIdx shuffle length min_uppercase min_digits min_symbols =
        .ok pw →
      pw.data.length = length ∧
      min_uppercase ≤ pw.data.countP isUpperChar ∧
      min_digits ≤ pw.data.countP isDigitChar ∧
      min_symbols ≤ pw.data.countP isPunctChar := by
  by_cases h : length < min_uppercase + min_digits + min_symbols
  · constructor
    · simp [generate_password, h]
    · intro pw hpw
      simp [generate_password, h] at hpw
  · constructor
    · simp [generate_password, h]
    · intro pw hpw
      simp only [generate_password, if_neg h] at hpw
      set upChars := (List.range min_uppercase).map
        (fun i => secretsChoice ascii_uppercase (choiceIdx i)) with hup
      set digChars := (List.range min_digits).map
        (fun i => secretsChoice string_digits (choiceIdx (min_uppercase + i))) with hdig
      set symChars := (List.range min_symbols).map
        (fun i => secretsChoice string_punctuation
          (choiceIdx (min_uppercase + min_digits + i))) with hsym
      set fillChars := (List.range (length - (min_uppercase + min_digits + min_symbols))).map
        (fun i => secretsChoice (ascii_letters ++ string_digits ++ string_punctuation)
          (choiceIdx (min_uppercase + min_digits + min_symbols + i))) with hfill
      have hpwdata : pw.data = shuffle (upChars ++ digChars ++ symChars ++ fillChars) :=
        congrArg String.data (Except.ok.inj hpw).symm
      have hperm : List.Perm pw.data (upChars ++ digChars ++ symChars ++ fillChars) := by
        rw [hpwdata]; exact hshuffle _
      have hlenpc : (upChars ++ digChars ++ symChars ++ fillChars).length = length := by
        simp [hup, hdig, hsym, hfill]
        omega
      have hcount : ∀ p : Char → Bool,
          pw.data.countP p = upChars.countP p + digChars.countP p + symChars.countP p
            + fillChars.countP p := by
        intro p
        rw [hperm.countP_eq]
        simp only [List.countP_append]
      refine ⟨by rw [hperm.length_eq, hlenpc], ?_, ?_, ?_⟩
      · have hall : upChars.countP isUpperChar = min_uppercase := by
          have hlen : upChars.length = min_uppercase := by simp [hup]
          rw [← hlen]
          apply List.countP_eq_length.mpr
          intro a ha
          rw [hup] at ha
          obtain ⟨i, hi, rfl⟩ := List.mem_map.mp ha
          exact mem_ascii_uppercase_isUpper _
            (secretsChoice_mem ascii_uppercase (by decide) _)
        rw [hcount isUpperChar]
        omega
      · have hall : digChars.countP isDigitChar = min_digits := by
          have hlen : digChars.length = min_digits := by simp [hdig]
          rw [← hlen]
          apply List.countP_eq_length.mpr
          intro a ha
          rw [hdig] at ha
          obtain ⟨i, hi, rfl⟩ := List.mem_map.mp ha
          exact mem_string_digits_isDigit _
            (secretsChoice_mem string_digits (by decide) _)
        rw [hcount isDigitChar]
        omega
      · have hall : symChars.countP isPunctChar = min_symbols := by
          have hlen : symChars.length = min_symbols := by simp [hsym]
          rw [← hlen]
          apply List.countP_eq_length.mpr
          intro a ha
          rw [hsym] at ha
          obtain ⟨i, hi, rfl⟩ := List.mem_map.mp ha
          exact mem_string_punctuation_isPunct _
            (secretsChoice_mem string_punctuation (by decide) _)
        rw [hcount isPunctChar]
        omega

/-- Witness for C6 at a concrete input: draw stream constantly 0, identity
shuffle, length 6 with two of each required class, producing `AA00!!`. -/
theorem generate_password_spec_witness :
    "AA00!!".data.length = 6 ∧
    2 ≤ "AA00!!".data.countP isUpperChar ∧
    2 ≤ "AA00!!".data.countP isDigitChar ∧
    2 ≤ "AA00!!".data.countP isPunctChar :=
  (generate_password_spec (fun _ => 0) id (fun l => List.Perm.refl l) 6 2 2 2).2
    "AA00!!" rfl

/-! ### `test.py`: `RandomDataGenerator.generate_realtime_alerts`

Payment events carry the full fraud metadata produced by
`generate_event_log`; other event types carry none that this function
reads.  The fresh randomness inside the function — `secrets.token_hex(6)`
for alert ids and `datetime.now()` for timestamps — is modelled by two
streams indexed by the number of alerts emitted so far. -/

/-- The fields of a `payment_processed` event's metadata that
`generate_realtime_alerts` reads.  Scores and amounts are exact rationals. -/
structure PaymentMeta where
  transactionId : String
  amount : ℚ
  currency : String
  paymentMethod : String
  billingCountry : String
  riskScore : ℚ
  mlScores : List ℚ
  fraudSignals : List (String × Bool)
  velocityTransactionsLastHour : Nat
  isVpn : Bool
  requires3ds : Bool
  passed3ds : Option Bool
  deriving DecidableEq

/-- An event as consumed by `generate_realtime_alerts`: either a
`payment_processed` event with its metadata, or any other event type. -/
inductive LogEvent where
  | payment (m : PaymentMeta)
  | other (eventType : String)
  deriving DecidableEq

/-- An alert record.  Fields that only some alert kinds populate are
`Option`s (absent dictionary keys). -/
structure Alert where
  id : String
  timestamp : String
  priority : String
  alertType : String
  title : String
  transactionId : String
  riskScore : Option ℚ
  riskFactors : Option (List String)
  transactionsCount : Option Nat
  billingCountry : Option String
  vpnDetected : Option Bool
  paymentMethod : Option String
  recommendedActions : List String
  notificationChannels : List String
  deriving DecidableEq

/-- Lookup of `fraud_signals["geo_risk"]` (`dict.get` with default
`False`). -/
def geoRisk (m : PaymentMeta) : Bool := (m.fraudSignals.lookup "geo_risk").getD false

/-- Number of ML model scores above 0.8
(`sum(1 for score in ml_scores.values() if score > 0.8)`). -/
def highMlScores (m : PaymentMeta) : Nat :=
  (m.mlScores.filter (fun score => (8 : ℚ)/10 < score)).length

/-- The critical-risk alert (titles are modelled without their emoji
prefix). -/
def mkCriticalAlert (tokenStream clockStream : Nat → String) (k : Nat)
    (m : PaymentMeta) : Alert :=
  { id := "alert_" ++ tokenStream k
  , timestamp := clockStream k
  , priority := "CRITICAL"
  , alertType := "fraud_detection"
  , title := "Critical Fraud Risk Detected"
  , transactionId := m.transactionId
  , riskScore := some m.riskScore
  , riskFactors := some ((m.fraudSignals.filter (fun p => p.2)).map (fun p => p.1))
  , transactionsCount := none
  , billingCountry := none
  , vpnDetected := none
  , paymentMethod := none
  , recommendedActions :=
      ["BLOCK_TRANSACTION", "MANUAL_REVIEW_REQUIRED", "CONTACT_CUSTOMER", "FLAG_ACCOUNT"]
  , notificationChannels := ["sms", "email", "slack", "pagerduty"] }

/-- The velocity-breach alert. -/
def mkVelocityAlert (tokenStream clockStream : Nat → String) (k : Nat)
    (m : PaymentMeta) : Alert :=
  { id := "alert_" ++ tokenStream k
  , timestamp := clockStream k
  , priority := "HIGH"
  , alertType := "velocity_breach"
  , title := "Unusual Transaction Velocity"
  , transactionId := m.transactionId
  , riskScore := none
  , riskFactors := none
  , transactionsCount := some m.velocityTransactionsLastHour
  , billingCountry := none
  , vpnDetected := none
  , paymentMethod := none
  , recommendedActions := ["RATE_LIMIT_ACCOUNT", "REQUIRE_ADDITIONAL_AUTH", "MONITOR_CLOSELY"]
  , notificationChannels := ["email", "slack", "dashboard"] }

/-- The geographic-anomaly alert. -/
def mkGeoAlert (tokenStream clockStream : Nat → String) (k : Nat)
    (m : PaymentMeta) : Alert :=
  { id := "alert_" ++ tokenStream k
  , timestamp := clockStream k
  , priority := "MEDIUM"
  , alertType := "geographic_anomaly"
  , title := "Suspicious Geographic Pattern"
  , transactionId := m.transactionId
  , riskScore := none
  , riskFactors := none
  , transactionsCount := none
  , billingCountry := some m.billingCountry
  , vpnDetected := some true
  , paymentMethod := none
  , recommendedActions := ["VERIFY_IDENTITY", "CHECK_PREVIOUS_LOCATIONS", "COMPARE_SHIPPING_BILLING"]
  , notificationChannels := ["email", "dashboard"] }

/-- The high-value-transaction alert. -/
def mkHighValueAlert (tokenStream clockStream : Nat → String) (k : Nat)
    (m : PaymentMeta) : Alert :=
  { id := "alert_" ++ tokenStream k
  , timestamp := clockStream k
  , priority := "LOW"
  , alertType := "high_value_transaction"
  , title := "High Value Transaction"
  , transactionId := m.transactionId
  , riskScore := none
  , riskFactors := none
  , transactionsCount := none
  , billingCountry := none
  , vpnDetected := none
  , paymentMethod := some m.paymentMethod
  , recommendedActions := ["LOG_FOR_AUDIT", "VERIFY_IF_FIRST_TIME"]
  , notificationChannels := ["dashboard"] }

/-- The body of `generate_realtime_alerts`, carrying the count `k` of alerts
emitted so far (each emitted alert consumes one token and one clock
reading). -/
def alertsGo (tokenStream clockStream : Nat → String) :
    List LogEvent → Nat → List Alert
  | [], _ => []
  | .other _ :: rest, k => alertsGo tokenStream clockStream rest k
  | .payment m :: rest, k =>
    if 80 < m.riskScore ∨ 2 ≤ highMlScores m then
      mkCriticalAlert tokenStream clockStream k m ::
        alertsGo tokenStream clockStream rest (k + 1)
    else if 15 < m.velocityTransactionsLastHour then
      mkVelocityAlert tokenStream clockStream k m ::
        alertsGo tokenStream clockStream rest (k + 1)
    else if geoRisk m = true ∧ m.isVpn = true then
      mkGeoAlert tokenStream clockStream k m ::
        alertsGo tokenStream clockStream rest (k + 1)
    else if 2500 < m.amount then
      mkHighValueAlert tokenStream clockStream k m ::
        alertsGo tokenStream clockStream rest (k + 1)
    else
      alertsGo tokenStream clockStream rest k

/-- `RandomDataGenerator.generate_realtime_alerts(events)`. -/
def generate_realtime_alerts (tokenStream clockStream : Nat → String)
    (events : List LogEvent) : List Alert :=
  alertsGo tokenStream clockStream events 0

/-- The alert decision as a pure function of one event's signal fields:
which priority (if any) the event is alerted with.  This is the
specification-side decision engine that `generate_realtime_alerts` is
compared against. -/
def alertDecision (m : PaymentMeta) : Option String :=
  if 80 < m.riskScore ∨ 2 ≤ highMlScores m then some "CRITICAL"
  else if 15 < m.velocityTransactionsLastHour then some "HIGH"
  else if geoRisk m = true ∧ m.isVpn = true then some "MEDIUM"
  else if 2500 < m.amount then some "LOW"
  else none

/-- Projection of an alert to the decision the claim is about: which
transaction is alerted, with what priority. -/
def alertCore (a : Alert) : String × String := (a.transactionId, a.priority)

/-- The decision projection of the whole run, computed from the events
alone. -/
def alertDecisions (events : List LogEvent) : List (String × String) :=
  events.filterMap (fun e =>
    match e with
    | .payment m => (alertDecision m).map (fun p => (m.transactionId, p))
    | .other _ => none)

theorem alertsGo_core (tokenStream clockStream : Nat → String) :
    ∀ (events : List LogEvent) (k : Nat),
      (alertsGo tokenStream clockStream events k).map alertCore = alertDecisions events := by
  intro events
  induction events with
  | nil => intro k; rfl
  | cons e rest ih =>
    intro k
    cases e with
    | other t => simpa [alertsGo, alertDecisions] using ih k
    | payment m =>
      by_cases h1 : 80 < m.riskScore ∨ 2 ≤ highMlScores m
      · simp [alertsGo, alertDecisions, alertDecision, h1, alertCore, mkCriticalAlert, ih]
      · by_cases h2 : 15 < m.velocityTransactionsLastHour
        · simp [alertsGo, alertDecisions, alertDecision, h1, h2, alertCore, mkVelocityAlert, ih]
        · by_cases h3 : geoRisk m = true ∧ m.isVpn = true
          · simp [alertsGo, alertDecisions, alertDecision, h1, h2, h3, alertCore, mkGeoAlert, ih]
          · by_cases h4 : 2500 < m.amount
            · simp [alertsGo, alertDecisions, alertDecision, h1, h2, h3, h4, alertCore,
                mkHighValueAlert, ih]
            · simp [alertsGo, alertDecisions, alertDecision, h1, h2, h3, h4, ih]

/-- C3 (amended): which payment events get an alert, and with what
priority, is a deterministic function of the events' signal fields: the
(transaction, priority) projection of `generate_realtime_alerts` equals
`alertDecisions events` for every token stream and every clock, hence is
identical between any two runs on the same event list. -/
theorem generate_realtime_alerts_deterministic
    (tokenStream clockStream tokenStream' clockStream' : Nat → String)
    (events : List LogEvent) :
    (generate_realtime_alerts tokenStream clockStream events).map alertCore =
        alertDecisions events ∧
    (generate_realtime_alerts tokenStream clockStream events).map alertCore =
      (generate_realtime_alerts tokenStream' clockStream' events).map alertCore := by
  constructor
  · exact alertsGo_core tokenStream clockStream events 0
  · rw [show generate_realtime_alerts tokenStream clockStream events =
        alertsGo tokenStream clockStream events 0 from rfl,
      show generate_realtime_alerts tokenStream' clockStream' events =
        alertsGo tokenStream' clockStream' events 0 from rfl,
      alertsGo_core, alertsGo_core]

/-- A concrete high-risk payment event. -/
def highRiskMeta : PaymentMeta :=
  { transactionId := "txn_deadbeef"
  , amount := 120
  , currency := "USD"
  , paymentMethod := "credit_card"
  , billingCountry := "US"
  , riskScore := 90
  , mlScores := [1/2, 1/4, 9/10, 1/10]
  , fraudSignals := [("time_risk", true), ("geo_risk", false)]
  , velocityTransactionsLastHour := 3
  , isVpn := false
  , requires3ds := true
  , passed3ds := some true }

/-- C3 counterexample to the claim as stated: on a fixed event list, two
runs with different fresh randomness (different token and clock streams)
produce different alert records — the ids differ — but alert *selection and
priority* are identical; they are a deterministic function of the signal
fields, not of the randomness. -/
theorem alert_selection_not_randomized :
    (generate_realtime_alerts (fun _ => "aaaaaaaaaaaa") (fun _ => "2025-01-01T00:00:00")
        [.payment highRiskMeta, .other "user_login"]).map alertCore =
      (generate_realtime_alerts (fun _ => "bbbbbbbbbbbb") (fun _ => "2026-06-06T06:06:06")
        [.payment highRiskMeta, .other "user_login"]).map alertCore ∧
    (generate_realtime_alerts (fun _ => "aaaaaaaaaaaa") (fun _ => "2025-01-01T00:00:00")
        [.payment highRiskMeta, .other "user_login"]) ≠
      (generate_realtime_alerts (fun _ => "bbbbbbbbbbbb") (fun _ => "2026-06-06T06:06:06")
        [.payment highRiskMeta, .other "user_login"]) ∧
    (generate_realtime_alerts (fun _ => "aaaaaaaaaaaa") (fun _ => "2025-01-01T00:00:00")
        [.payment highRiskMeta, .other "user_login"]).map alertCore =
      [("txn_deadbeef", "CRITICAL")] := by
  refine ⟨by decide, by decide, by decide⟩

/-! ### `test.py`: `RandomDataGenerator.generate_blockchain_audit_trail`

The audit-trail builder serializes each audit entry
(`json.dumps(audit_entry, sort_keys=True)` — modelled by the abstract
`serialize` parameter applied to the entry's inputs: the event index, the
event, and the previous hash), then mines: it increments a nonce until
`sha256(block_data + str(nonce))` has hex digest starting with `"00"`.
The unbounded `while True` loop is modelled with explicit fuel.  Post-mining
decoration that does not enter the mined hash (merkle root, simulated
signature, block size) is omitted; `chain_valid` is set by the factored
assignment `set_chain_valid`, exactly as the source sets it. -/

/-- The audit-entry inputs that an event contributes: its type, id,
timestamp, and the rest of its content (metadata etc.) as an opaque
payload consumed by the serialization. -/
structure BEvent where
  eventType : String
  eventId : String
  timestamp : String
  payload : String
  deriving DecidableEq

/-- One block of the audit trail (the fields relevant to mining, chaining
and validation). -/
structure Block where
  blockNumber : Nat
  eventType : String
  eventId : String
  previousHash : String
  nonce : Nat
  miningAttempts : Nat
  hash : String
  chainValid : Bool
  deriving DecidableEq

/-- Source line `audit_entry["chain_valid"] = True` (under the comment
`# Chain validation`): the flag is assigned the constant `True`. -/
def set_chain_valid (b : Block) : Block := { b with chainValid := true }

/-- `previous_hash = "0" * 64` — the genesis block reference. -/
def genesisPrevHash : String := String.mk (List.replicate 64 '0')

/-- `target_difficulty = "00"` — require the hash to start with two zeros. -/
def target_difficulty : String := "00"

/-- The mining loop: starting from the given nonce, increment and hash
until the digest starts with the target difficulty (`fuel` bounds the
unbounded `while True`). -/
def mineGo (H : String → String) (blockData : String) : Nat → Nat → Option (Nat × String)
  | 0, _ => none
  | fuel + 1, nonce =>
    if target_difficulty.data.isPrefixOf (H (blockData ++ Nat.repr (nonce + 1))).data then
      some (nonce + 1, H (blockData ++ Nat.repr (nonce + 1)))
    else mineGo H blockData fuel (nonce + 1)

/-- Mining one block: the source starts at `nonce = 0` and increments
before each attempt. -/
def mineBlock (H : String → String) (blockData : String) (fuel : Nat) :
    Option (Nat × String) :=
  mineGo H blockData fuel 0

/-- The block-construction loop of `generate_blockchain_audit_trail`. -/
def buildChainAux (H : String → String) (serialize : Nat → BEvent → String → String)
    (fuel : Nat) : List BEvent → Nat → String → Option (List Block)
  | [], _, _ => some []
  | e :: rest, idx, previous_hash =>
    match mineBlock H (serialize idx e previous_hash) fuel with
    | none => none
    | some (n, block_hash) =>
      match buildChainAux H serialize fuel rest (idx + 1) block_hash with
      | none => none
      | some bs =>
        some (set_chain_valid
          { blockNumber := idx + 1, eventType := e.eventType, eventId := e.eventId
          , previousHash := previous_hash, nonce := n, miningAttempts := n
          , hash := block_hash, chainValid := false } :: bs)

/-- The summary entry appended when the chain is non-empty. -/
structure BlockchainSummary where
  chainLength : Nat
  totalTransactions : Nat
  chainHash : String
  integrityVerified : Bool
  consensusMechanism : String
  averageMiningAttempts : ℚ
  deriving DecidableEq

/-- `blockchain_summary`: chain statistics, `integrity_verified` assigned
the constant `True`, and `chain_hash` a digest of the serialized chain
(`json.dumps(blockchain)` modelled by `serializeChain`). -/
def mkBlockchainSummary (H : String → String) (serializeChain : List Block → String)
    (blockchain : List Block) : BlockchainSummary :=
  { chainLength := blockchain.length
  , totalTransactions :=
      (blockchain.filter (fun b => b.eventType == "payment_processed")).length
  , chainHash := H (serializeChain blockchain)
  , integrityVerified := true
  , consensusMechanism := "Proof of Work (PoW)"
  , averageMiningAttempts :=
      mkRat ((blockchain.map Block.miningAttempts).sum : Int) blockchain.length }

/-- `RandomDataGenerator.generate_blockchain_audit_trail(events)`: the mined
chain plus, when non-empty, the summary entry the source appends to the
returned list. -/
def generate_blockchain_audit_trail (H : String → String)
    (serialize : Nat → BEvent → String → String)
    (serializeChain : List Block → String) (fuel : Nat) (events : List BEvent) :
    Option (List Block × Option BlockchainSummary) :=
  match buildChainAux H serialize fuel events 0 genesisPrevHash with
  | none => none
  | some blockchain =>
    some (blockchain,
      if blockchain.isEmpty then none
      else some (mkBlockchainSummary H serializeChain blockchain))

theorem mineGo_sound (H : String → String) (d : String) :
    ∀ (fuel nonce n : Nat) (h : String),
      mineGo H d fuel nonce = some (n, h) →
      h = H (d ++ Nat.repr n) ∧
      target_difficulty.data.isPrefixOf h.data = true ∧
      nonce < n ∧
      ∀ m, nonce < m → m < n →
        target_difficulty.data.isPrefixOf (H (d ++ Nat.repr m)).data = false := by
  intro fuel
  induction fuel with
  | zero =>
    intro nonce n h hm
    exact absurd hm (by simp [mineGo])
  | succ fuel ih =>
    intro nonce n h hm
    rw [mineGo] at hm
    by_cases hc : target_difficulty.data.isPrefixOf (H (d ++ Nat.repr (nonce + 1))).data = true
    · rw [if_pos hc] at hm
      obtain ⟨rfl, rfl⟩ := Prod.mk.inj (Option.some.inj hm)
      refine ⟨rfl, hc, Nat.lt_succ_self _, ?_⟩
      intro m hm1 hm2
      omega
    · rw [if_neg hc] at hm
      obtain ⟨ha, hb, hlt, hmin⟩ := ih (nonce + 1) n h hm
      refine ⟨ha, hb, by omega, ?_⟩
      intro m hm1 hm2
      rcases Nat.lt_or_ge (nonce + 1) m with hgt | hle
      · exact hmin m hgt hm2
      · have hmeq : m = nonce + 1 := by omega
        subst hmeq
        exact Bool.eq_false_iff.mpr hc

/-- C1 (amended): the nonce and hash stored by the mining loop are the
result of a genuine hash search over the serialized block contents:
whenever mining returns `(n, h)`, the stored hash `h` is exactly
`H(block_data + str(n))`, it meets the `"00"` difficulty target, and `n` is
the least positive nonce doing so.  No randomness enters: the result is a
function of the block data and the hash function alone. -/
theorem mineBlock_hash_search (H : String → String) (blockData : String)
    (fuel n : Nat) (h : String)
    (hmine : mineBlock H blockData fuel = some (n, h)) :
    h = H (blockData ++ Nat.repr n) ∧
    target_difficulty.data.isPrefixOf h.data = true ∧
    1 ≤ n ∧
    ∀ m, 1 ≤ m → m < n →
      target_difficulty.data.isPrefixOf (H (blockData ++ Nat.repr m)).data = false := by
  obtain ⟨ha, hb, hlt, hmin⟩ := mineGo_sound H blockData fuel 0 n h hmine
  exact ⟨ha, hb, hlt, fun m h1 h2 => hmin m h1 h2⟩

/-- Witness for C1's amended theorem, at the real SHA-256 and the concrete
block data `"blk3"`: mining returns nonce 1 with the actual digest of
`"blk3" + "1"`. -/
theorem mineBlock_hash_search_witness :
    "009adc64d6a7a02ef286026600307e749b6ddc7f81b63296f99c2d1e6d428b64" =
      sha256Hex ("blk3" ++ Nat.repr 1) ∧
    target_difficulty.data.isPrefixOf
      "009adc64d6a7a02ef286026600307e749b6ddc7f81b63296f99c2d1e6d428b64".data = true :=
  have h := mineBlock_hash_search sha256Hex "blk3" 5 1
    "009adc64d6a7a02ef286026600307e749b6ddc7f81b63296f99c2d1e6d428b64" (by decide)
  ⟨h.1, h.2.1⟩

/-- C1 counterexample to the claim as stated: at the concrete block data
`"blk3"`, the block hash and nonce are not plausible-looking random values —
they are produced by the working hash search: the mining loop returns
nonce 1 with hash equal to the genuine SHA-256 digest of the block data
followed by the nonce, and that digest meets the difficulty target. -/
theorem blockchain_mining_is_real_hash_search :
    mineBlock sha256Hex "blk3" 5 =
      some (1, "009adc64d6a7a02ef286026600307e749b6ddc7f81b63296f99c2d1e6d428b64") ∧
    sha256Hex ("blk3" ++ Nat.repr 1) =
      "009adc64d6a7a02ef286026600307e749b6ddc7f81b63296f99c2d1e6d428b64" ∧
    target_difficulty.data.isPrefixOf
      "009adc64d6a7a02ef286026600307e749b6ddc7f81b63296f99c2d1e6d428b64".data = true :=
  ⟨by decide, by decide, by decide⟩

theorem buildChainAux_spec (H : String → String)
    (serialize : Nat → BEvent → String → String) (fuel : Nat) :
    ∀ (events : List BEvent) (idx : Nat) (prev : String) (chain : List Block),
      buildChainAux H serialize fuel events idx prev = some chain →
      (∀ b, chain.head? = some b → b.previousHash = prev) ∧
      List.Chain' (fun a b => b.previousHash = a.hash) chain ∧
      ∀ b ∈ chain, b.chainValid = true ∧ 1 ≤ b.nonce ∧ b.miningAttempts = b.nonce ∧
        target_difficulty.data.isPrefixOf b.hash.data = true ∧
        ∃ d, b.hash = H (d ++ Nat.repr b.nonce) := by
  intro events
  induction events with
  | nil =>
    intro idx prev chain hch
    obtain rfl : ([] : List Block) = chain := Option.some.inj hch
    exact ⟨by simp, by simp, by simp⟩
  | cons e rest ih =>
    intro idx prev chain hch
    cases hm : mineBlock H (serialize idx e prev) fuel with
    | none =>
      simp only [buildChainAux, hm] at hch
      exact Option.noConfusion hch
    | some p =>
      obtain ⟨n, block_hash⟩ := p
      cases hr : buildChainAux H serialize fuel rest (idx + 1) block_hash with
      | none =>
        simp only [buildChainAux, hm, hr] at hch
        exact Option.noConfusion hch
      | some bs =>
        simp only [buildChainAux, hm, hr] at hch
        obtain rfl := Option.some.inj hch
        obtain ⟨hmeq, hpre, hpos, _⟩ := mineGo_sound H (serialize idx e prev) fuel 0 n block_hash hm
        obtain ⟨hhead, hchain, hmem⟩ := ih (idx + 1) block_hash bs hr
        refine ⟨?_, ?_, ?_⟩
        · intro b hb
          obtain rfl : _ = b := Option.some.inj hb
          simp [set_chain_valid]
        · refine List.chain'_cons'.mpr ⟨?_, hchain⟩
          intro b' hb'
          rw [hhead b' hb']
          simp [set_chain_valid]
        · intro b hb
          rcases List.mem_cons.mp hb with rfl | hbs
          · refine ⟨rfl, by simpa [set_chain_valid] using hpos, rfl, ?_, ?_⟩
            · simpa [set_chain_valid] using hpre
            · exact ⟨serialize idx e prev, by simpa [set_chain_valid] using hmeq⟩
          · exact hmem b hbs

/-- C7: every chain returned by `generate_blockchain_audit_trail` (with the
real SHA-256) satisfies the chain invariant: the first block's
`previous_hash` is the 64-zero genesis reference, every later block's
`previous_hash` is the hash of the block before it, and every block's hash
is a 64-character SHA-256 hex digest of its mining string, beginning with
`"00"`.  (The source appends the summary dictionary to the same Python
list; it is modelled as the separate second component.) -/
theorem blockchain_chain_invariant (serialize : Nat → BEvent → String → String)
    (serializeChain : List Block → String) (fuel : Nat) (events : List BEvent)
    (chain : List Block) (summ : Option BlockchainSummary)
    (hgen : generate_blockchain_audit_trail sha256Hex serialize serializeChain fuel events
      = some (chain, summ)) :
    (∀ b, chain.head? = some b → b.previousHash = genesisPrevHash) ∧
    List.Chain' (fun a b => b.previousHash = a.hash) chain ∧
    ∀ b ∈ chain, (∃ d, b.hash = sha256Hex (d ++ Nat.repr b.nonce)) ∧
      target_difficulty.data.isPrefixOf b.hash.data = true ∧
      b.hash.data.length = 64 := by
  have hb : buildChainAux sha256Hex serialize fuel events 0 genesisPrevHash = some chain := by
    unfold generate_blockchain_audit_trail at hgen
    cases hh : buildChainAux sha256Hex serialize fuel events 0 genesisPrevHash with
    | none => rw [hh] at hgen; cases hgen
    | some bc =>
      rw [hh] at hgen
      obtain ⟨h1, h2⟩ := Prod.mk.inj (Option.some.inj hgen)
      rw [h1]
  obtain ⟨h1, h2, h3⟩ := buildChainAux_spec sha256Hex serialize fuel events 0 genesisPrevHash
    chain hb
  refine ⟨h1, h2, ?_⟩
  intro b hbmem
  obtain ⟨hv, hpos, hma, hpre, d, hd⟩ := h3 b hbmem
  exact ⟨⟨d, hd⟩, hpre, by rw [hd]; exact sha256Hex_digest_length _⟩

/-- The concrete event used in the blockchain witnesses. -/
def wEvent : BEvent :=
  { eventType := "user_login", eventId := "evt_1", timestamp := "t0", payload := "p" }

/-- The block mined from `wEvent` with block data `"blk3"`: nonce 1 already
meets the difficulty. -/
def wBlock : Block :=
  { blockNumber := 1, eventType := "user_login", eventId := "evt_1"
  , previousHash := genesisPrevHash, nonce := 1, miningAttempts := 1
  , hash := "009adc64d6a7a02ef286026600307e749b6ddc7f81b63296f99c2d1e6d428b64"
  , chainValid := true }

/-- The summary of the one-block witness chain. -/
def wSummary : BlockchainSummary := mkBlockchainSummary sha256Hex (fun _ => "x") [wBlock]

/-- Witness for C7 at a concrete run: one event, serialization constantly
`"blk3"`, real SHA-256, fuel 5. -/
theorem blockchain_chain_invariant_witness :
    wBlock.previousHash = genesisPrevHash ∧
    target_difficulty.data.isPrefixOf wBlock.hash.data = true ∧
    wBlock.hash.data.length = 64 :=
  have h := blockchain_chain_invariant (fun _ _ _ => "blk3") (fun _ => "x") 5 [wEvent]
    [wBlock] (some wSummary) (by decide)
  have hm := h.2.2 wBlock (List.mem_singleton.mpr rfl)
  ⟨h.1 wBlock rfl, hm.2.1, hm.2.2⟩

/-- Modelled from the claim's words: a `chain_valid` flag established by
locally recomputing the block's hash from its mining string and nonce. -/
def recomputedChainValid (H : String → String) (blockData : String) (b : Block) : Bool :=
  b.hash == H (blockData ++ Nat.repr b.nonce)

/-- A block whose stored hash is wrong for its data. -/
def badBlock : Block :=
  { blockNumber := 1, eventType := "payment_processed", eventId := "evt_2"
  , previousHash := genesisPrevHash, nonce := 1, miningAttempts := 1
  , hash := "ff", chainValid := false }

/-- C4 counterexample to the claim as stated: the `chain_valid` flag is not
established by locally recomputing the block's hash — the source assignment
(`set_chain_valid`, line 742) marks valid even a block whose stored hash
fails the recomputation check, because it assigns the constant `True`
without reading any hash. -/
theorem chain_valid_flag_not_recomputed :
    (set_chain_valid badBlock).chainValid = true ∧
    recomputedChainValid sha256Hex "blk3" (set_chain_valid badBlock) = false :=
  ⟨rfl, by decide⟩

/-- C4 (amended): the `chain_valid` flag on every block and the
`integrity_verified` flag in the summary are unconditionally `True` — for
every hash function, serialization, fuel and event list; no validation
mechanism (not even a local hash recomputation) establishes them. -/
theorem chain_valid_and_integrity_unconditional (H : String → String)
    (serialize : Nat → BEvent → String → String)
    (serializeChain : List Block → String) (fuel : Nat) (events : List BEvent)
    (chain : List Block) (summ : Option BlockchainSummary)
    (hgen : generate_blockchain_audit_trail H serialize serializeChain fuel events
      = some (chain, summ)) :
    (∀ b ∈ chain, b.chainValid = true) ∧
    ∀ s, summ = some s → s.integrityVerified = true := by
  have hb : buildChainAux H serialize fuel events 0 genesisPrevHash = some chain ∧
      summ = (if chain.isEmpty then none
        else some (mkBlockchainSummary H serializeChain chain)) := by
    unfold generate_blockchain_audit_trail at hgen
    cases hh : buildChainAux H serialize fuel events 0 genesisPrevHash with
    | none => rw [hh] at hgen; cases hgen
    | some bc =>
      rw [hh] at hgen
      obtain ⟨h1, h2⟩ := Prod.mk.inj (Option.some.inj hgen)
      subst h1
      exact ⟨rfl, h2.symm⟩
  obtain ⟨hchain, hsumm⟩ := hb
  constructor
  · intro b hbmem
    exact ((buildChainAux_spec H serialize fuel events 0 genesisPrevHash chain hchain).2.2
      b hbmem).1
  · intro s hs
    rw [hsumm] at hs
    by_cases he : chain.isEmpty
    · rw [if_pos he] at hs; cases hs
    · rw [if_neg he] at hs
      obtain rfl := (Option.some.inj hs).symm
      rfl

/-- A trivial hash oracle that meets the difficulty immediately, used to
exercise the generator cheaply in the C4 witness. -/
def mockHash : String → String := fun _ => "00mock"

/-- The block produced by the mock-hash run. -/
def wMockBlock : Block :=
  { blockNumber := 1, eventType := "user_login", eventId := "evt_1"
  , previousHash := genesisPrevHash, nonce := 1, miningAttempts := 1
  , hash := "00mock", chainValid := true }

/-- The summary produced by the mock-hash run. -/
def wMockSummary : BlockchainSummary := mkBlockchainSummary mockHash (fun _ => "c") [wMockBlock]

/-- Witness for C4's amended theorem at a concrete run. -/
theorem chain_valid_unconditional_witness :
    wMockBlock.chainValid = true ∧ wMockSummary.integrityVerified = true :=
  have h := chain_valid_and_integrity_unconditional mockHash (fun _ _ _ => "d") (fun _ => "c")
    1 [wEvent] [wMockBlock] (some wMockSummary) (by decide)
  ⟨h.1 wMockBlock (List.mem_singleton.mpr rfl), h.2 wMockSummary rfl⟩

/-! ### The three neural-network files

`neural_network_simple_demo.py` (`SimpleNeuralNetwork`: numpy, 2-4-1, no
biases), `pure_python_nn.py` (`PureNeuralNetwork`: Python lists and nested
loops, biases initialized to 0.0), and `simple_neural_network.py`
(`NeuralNetwork`: numpy, biases, ReLU hidden layer, clipped sigmoid,
averaged cross-entropy gradient).  Arithmetic is over `ℝ` with `Real.exp`;
the random weight initialisation is irrelevant to the claims, which
quantify over the weights. -/

/-- The sigmoid of `neural_network_simple_demo.py` and `pure_python_nn.py`:
`1 / (1 + exp(-x))`. -/
noncomputable def sigmoidReal (x : ℝ) : ℝ := 1 / (1 + Real.exp (-x))

/-- `sigmoid_derivative(x) = x * (1 - x)` (applied to activations), common
to all three files. -/
def sigmoid_derivative (x : ℝ) : ℝ := x * (1 - x)

/-- `SimpleNeuralNetwork` state: 2×4 input-to-hidden weights, 4×1
hidden-to-output weights, no biases. -/
structure SimpleNet where
  weights_input_hidden : Fin 2 → Fin 4 → ℝ
  weights_hidden_output : Fin 4 → Fin 1 → ℝ
  learning_rate : ℝ

/-- Hidden activations of `SimpleNeuralNetwork` on a batch of `m` rows:
`sigmoid(np.dot(inputs, self.weights_input_hidden))`. -/
noncomputable def simpleHidden {m : Nat} (net : SimpleNet)
    (inputs : Fin m → Fin 2 → ℝ) : Fin m → Fin 4 → ℝ :=
  fun s j => sigmoidReal (∑ i, inputs s i * net.weights_input_hidden i j)

/-- `SimpleNeuralNetwork.predict`:
`sigmoid(np.dot(hidden, self.weights_hidden_output))`. -/
noncomputable def simplePredict {m : Nat} (net : SimpleNet)
    (inputs : Fin m → Fin 2 → ℝ) : Fin m → Fin 1 → ℝ :=
  fun s k => sigmoidReal (∑ j, simpleHidden net inputs s j * net.weights_hidden_output j k)

/-- One epoch of `SimpleNeuralNetwork.train` on a batch: forward pass,
output error, deltas, and both weight updates (`+= ... * learning_rate`). -/
noncomputable def simpleTrainEpoch {m : Nat} (net : SimpleNet)
    (inputs : Fin m → Fin 2 → ℝ) (targets : Fin m → Fin 1 → ℝ) : SimpleNet :=
  let hidden := simpleHidden net inputs
  let output := fun (s : Fin m) (k : Fin 1) =>
    sigmoidReal (∑ j, hidden s j * net.weights_hidden_output j k)
  let output_error := fun (s : Fin m) (k : Fin 1) => targets s k - output s k
  let output_delta := fun (s : Fin m) (k : Fin 1) =>
    output_error s k * sigmoid_derivative (output s k)
  let hidden_error := fun (s : Fin m) (j : Fin 4) =>
    ∑ k, output_delta s k * net.weights_hidden_output j k
  let hidden_delta := fun (s : Fin m) (j : Fin 4) =>
    hidden_error s j * sigmoid_derivative (hidden s j)
  { weights_input_hidden := fun i j =>
      net.weights_input_hidden i j + (∑ s, inputs s i * hidden_delta s j) * net.learning_rate
  , weights_hidden_output := fun j k =>
      net.weights_hidden_output j k + (∑ s, hidden s j * output_delta s k) * net.learning_rate
  , learning_rate := net.learning_rate }

/-- `PureNeuralNetwork` state: list-of-list weights, bias lists, layer
sizes. -/
structure PureNet where
  w1 : List (List ℝ)
  b1 : List ℝ
  w2 : List (List ℝ)
  b2 : List ℝ
  input_size : Nat
  hidden_size : Nat
  output_size : Nat
  learning_rate : ℝ

/-- `PureNeuralNetwork.forward`, hidden layer: for each hidden index `j`,
`sum_val = b1[j]`, then `sum_val += inputs[i] * w1[i][j]` over
`i in range(len(inputs))`, then sigmoid. -/
noncomputable def pureHidden (net : PureNet) (inputs : List ℝ) : List ℝ :=
  (List.range net.hidden_size).map (fun j =>
    sigmoidReal ((List.range inputs.length).foldl
      (fun sum_val i => sum_val + inputs.getD i 0 * ((net.w1.getD i []).getD j 0))
      (net.b1.getD j 0)))

/-- `PureNeuralNetwork.forward`, output layer. -/
noncomputable def pureOutput (net : PureNet) (hidden : List ℝ) : List ℝ :=
  (List.range net.output_size).map (fun k =>
    sigmoidReal ((List.range net.hidden_size).foldl
      (fun sum_val j => sum_val + hidden.getD j 0 * ((net.w2.getD j []).getD k 0))
      (net.b2.getD k 0)))

/-- `PureNeuralNetwork.forward`. -/
noncomputable def pureForward (net : PureNet) (inputs : List ℝ) : List ℝ :=
  pureOutput net (pureHidden net inputs)

/-- `PureNeuralNetwork.backward`: output deltas, hidden deltas (computed
with the pre-update `w2`), then the four updates. -/
noncomputable def pureBackward (net : PureNet) (inputs targets hidden output : List ℝ) :
    PureNet :=
  let output_deltas := (List.range net.output_size).map (fun k =>
    (targets.getD k 0 - output.getD k 0) * sigmoid_derivative (output.getD k 0))
  let hidden_deltas := (List.range net.hidden_size).map (fun j =>
    ((List.range net.output_size).foldl
      (fun error k => error + output_deltas.getD k 0 * ((net.w2.getD j []).getD k 0)) 0)
      * sigmoid_derivative (hidden.getD j 0))
  { net with
    w2 := (List.range net.hidden_size).map (fun j =>
      (List.range net.output_size).map (fun k =>
        (net.w2.getD j []).getD k 0
          + net.learning_rate * output_deltas.getD k 0 * hidden.getD j 0))
  , b2 := (List.range net.output_size).map (fun k =>
      net.b2.getD k 0 + net.learning_rate * output_deltas.getD k 0)
  , w1 := (List.range inputs.length).map (fun i =>
      (List.range net.hidden_size).map (fun j =>
        (net.w1.getD i []).getD j 0
          + net.learning_rate * hidden_deltas.getD j 0 * inputs.getD i 0))
  , b1 := (List.range net.hidden_size).map (fun j =>
      net.b1.getD j 0 + net.learning_rate * hidden_deltas.getD j 0) }

/-- One training-loop iteration of `PureNeuralNetwork.train` on one sample:
`forward(inputs)` then `backward(inputs, targets)`. -/
noncomputable def pureTrainSample (net : PureNet) (inputs targets : List ℝ) : PureNet :=
  let hidden := pureHidden net inputs
  let output := pureOutput net hidden
  pureBackward net inputs targets hidden output

/-- `np.clip(x, lo, hi)`. -/
def npClip (lo hi x : ℝ) : ℝ := max lo (min x hi)

/-- `NeuralNetwork.sigmoid` of `simple_neural_network.py`:
`1 / (1 + np.exp(-np.clip(x, -500, 500)))`. -/
noncomputable def nnSigmoid (x : ℝ) : ℝ := 1 / (1 + Real.exp (-(npClip (-500) 500 x)))

/-- `NeuralNetwork.relu`: `np.maximum(0, x)`. -/
noncomputable def nnRelu (x : ℝ) : ℝ := max 0 x

/-- `NeuralNetwork` weights of `simple_neural_network.py` (sizes
`input_size`, `hidden_size`, `output_size`; biases initialized to zero
matrices by `__init__` but mutable, hence fields). -/
structure NNWeights (n hd o : Nat) where
  W1 : Fin n → Fin hd → ℝ
  b1 : Fin hd → ℝ
  W2 : Fin hd → Fin o → ℝ
  b2 : Fin o → ℝ

/-- `NeuralNetwork.forward`: `z1 = X·W1 + b1` (row-broadcast bias),
`a1 = relu(z1)`, `z2 = a1·W2 + b2`, `a2 = sigmoid(z2)`; returns
`(a2, a1, X)`. -/
noncomputable def nnForward {m n hd o : Nat} (net : NNWeights n hd o)
    (X : Fin m → Fin n → ℝ) :
    (Fin m → Fin o → ℝ) × (Fin m → Fin hd → ℝ) × (Fin m → Fin n → ℝ) :=
  let z1 := fun (s : Fin m) (j : Fin hd) => (∑ i, X s i * net.W1 i j) + net.b1 j
  let a1 := fun (s : Fin m) (j : Fin hd) => nnRelu (z1 s j)
  let z2 := fun (s : Fin m) (k : Fin o) => (∑ j, a1 s j * net.W2 j k) + net.b2 k
  let a2 := fun (s : Fin m) (k : Fin o) => nnSigmoid (z2 s k)
  (a2, a1, X)

/-- C8: `NeuralNetwork.forward` applies ReLU to the hidden pre-activation
and (clipped) sigmoid to the output pre-activation: for every input batch
and every entry, the returned output is
`sigmoid(relu(X·W1 + b1)·W2 + b2)`. -/
theorem nnForward_is_sigmoid_relu_composition {m n hd o : Nat}
    (net : NNWeights n hd o) (X : Fin m → Fin n → ℝ) (s : Fin m) (k : Fin o) :
    (nnForward net X).1 s k =
      nnSigmoid ((∑ j, nnRelu ((∑ i, X s i * net.W1 i j) + net.b1 j) * net.W2 j k)
        + net.b2 k) := rfl

/-- The training inputs of `demo_xor`, `demo_and_gate` and
`create_dataset` (`ints 0/1`): `[[0,0],[0,1],[1,0],[1,1]]`. -/
def demoInputs : List (List Nat) := [[0, 0], [0, 1], [1, 0], [1, 1]]

/-- `demo_xor` targets. -/
def xorTargets : List Nat := [0, 1, 1, 0]

/-- `demo_and_gate` targets. -/
def andTargets : List Nat := [0, 0, 0, 1]

/-- `pure_python_nn`'s `training_data`. -/
def pure_training_data : List (List Nat × List Nat) :=
  [([0, 0], [0]), ([0, 1], [1]), ([1, 0], [1]), ([1, 1], [0])]

/-- Truth-table XOR on bits (specification side). -/
def xorBit (a b : Nat) : Nat := if a = b then 0 else 1

/-- Truth-table AND on bits (specification side). -/
def andBit (a b : Nat) : Nat := if a = 1 ∧ b = 1 then 1 else 0

/-- Layer sizes of `SimpleNeuralNetwork` (weight shapes `(2,4)` and
`(4,1)` in `__init__`). -/
def simpleNetLayerSizes : List Nat := [2, 4, 1]

/-- Default layer sizes of `PureNeuralNetwork`
(`input_size=2, hidden_size=4, output_size=1`). -/
def pureNetDefaultLayerSizes : List Nat := [2, 4, 1]

/-- C9: the perceptron demos are two-layer networks (exactly one hidden
layer between input and output) trained on the XOR and AND truth tables:
the four training inputs are `[0,0],[0,1],[1,0],[1,1]`, the `demo_xor` and
`pure_python_nn` targets are the XOR of the input bits, and the
`demo_and_gate` targets are the AND of the input bits. -/
theorem demos_two_layer_xor_and :
    demoInputs = [[0, 0], [0, 1], [1, 0], [1, 1]] ∧
    xorTargets = demoInputs.map (fun p => xorBit (p.getD 0 0) (p.getD 1 0)) ∧
    andTargets = demoInputs.map (fun p => andBit (p.getD 0 0) (p.getD 1 0)) ∧
    pure_training_data = demoInputs.zip (xorTargets.map (fun t => [t])) ∧
    simpleNetLayerSizes.length - 2 = 1 ∧
    pureNetDefaultLayerSizes.length - 2 = 1 := by
  refine ⟨rfl, by decide, by decide, by decide, rfl, rfl⟩

/-- A `PureNeuralNetwork` carrying the same weights as a
`SimpleNeuralNetwork` (and its biases at their initial value `0.0`). -/
noncomputable def pureOfSimple (net : SimpleNet) : PureNet :=
  { w1 := [[net.weights_input_hidden 0 0, net.weights_input_hidden 0 1,
            net.weights_input_hidden 0 2, net.weights_input_hidden 0 3],
           [net.weights_input_hidden 1 0, net.weights_input_hidden 1 1,
            net.weights_input_hidden 1 2, net.weights_input_hidden 1 3]]
  , b1 := [0, 0, 0, 0]
  , w2 := [[net.weights_hidden_output 0 0], [net.weights_hidden_output 1 0],
           [net.weights_hidden_output 2 0], [net.weights_hidden_output 3 0]]
  , b2 := [0]
  , input_size := 2, hidden_size := 4, output_size := 1
  , learning_rate := net.learning_rate }

set_option maxHeartbeats 2000000 in
theorem pure_simple_forward_eq (net : SimpleNet) (x0 x1 : ℝ) :
    pureForward (pureOfSimple net) [x0, x1] =
      [simplePredict (m := 1) net (fun _ => ![x0, x1]) 0 0] := by
  simp only [pureForward, pureHidden, pureOutput, pureOfSimple,
    simplePredict, simpleHidden,
    show List.range 1 = [0] from rfl, show List.range 2 = [0, 1] from rfl,
    show List.range 4 = [0, 1, 2, 3] from rfl,
    List.length_cons, List.length_nil, List.map_cons, List.map_nil,
    List.foldl_cons, List.foldl_nil, List.getD_cons_zero, List.getD_cons_succ,
    Fin.sum_univ_two, Fin.sum_univ_four,
    Matrix.cons_val_zero, Matrix.cons_val_one, Matrix.head_cons,
    List.cons.injEq, and_true]
  ring_nf

set_option maxHeartbeats 4000000 in
theorem pure_simple_w2_update_eq (net : SimpleNet) (x0 x1 t : ℝ) :
    (pureTrainSample (pureOfSimple net) [x0, x1] [t]).w2 =
      (pureOfSimple (simpleTrainEpoch (m := 1) net (fun _ => ![x0, x1]) (fun _ _ => t))).w2 := by
  simp only [pureTrainSample, pureBackward, pureHidden, pureOutput, pureOfSimple,
    simpleTrainEpoch, simpleHidden, sigmoid_derivative,
    show List.range 1 = [0] from rfl, show List.range 2 = [0, 1] from rfl,
    show List.range 4 = [0, 1, 2, 3] from rfl,
    List.length_cons, List.length_nil, List.map_cons, List.map_nil,
    List.foldl_cons, List.foldl_nil, List.getD_cons_zero, List.getD_cons_succ,
    Fin.sum_univ_one, Fin.sum_univ_two, Fin.sum_univ_four,
    Matrix.cons_val_zero, Matrix.cons_val_one, Matrix.head_cons,
    List.cons.injEq, and_true]
  ring_nf
  simp

set_option maxHeartbeats 4000000 in
theorem pure_simple_w1_update_eq (net : SimpleNet) (x0 x1 t : ℝ) :
    (pureTrainSample (pureOfSimple net) [x0, x1] [t]).w1 =
      (pureOfSimple (simpleTrainEpoch (m := 1) net (fun _ => ![x0, x1]) (fun _ _ => t))).w1 := by
  simp only [pureTrainSample, pureBackward, pureHidden, pureOutput, pureOfSimple,
    simpleTrainEpoch, simpleHidden, sigmoid_derivative,
    show List.range 1 = [0] from rfl, show List.range 2 = [0, 1] from rfl,
    show List.range 4 = [0, 1, 2, 3] from rfl,
    List.length_cons, List.length_nil, List.map_cons, List.map_nil,
    List.foldl_cons, List.foldl_nil, List.getD_cons_zero, List.getD_cons_succ,
    Fin.sum_univ_one, Fin.sum_univ_two, Fin.sum_univ_four,
    Matrix.cons_val_zero, Matrix.cons_val_one, Matrix.head_cons,
    List.cons.injEq, and_true]
  ring_nf
  simp

/-- C2 (amended, positive half): `SimpleNeuralNetwork` (numpy) and
`PureNeuralNetwork` (scalar loops) do compute the same arithmetic when the
cosmetic differences are aligned: with equal weights, the pure net biases
at their initial zeros, and one training sample, the forward passes are
equal and one backpropagation step updates `w1` and `w2` identically.
(The pure net additionally updates its biases, and processes multi-sample
epochs sequentially rather than as one batch.) -/
theorem simple_pure_backprop_agree (net : SimpleNet) (x0 x1 t : ℝ) :
    pureForward (pureOfSimple net) [x0, x1] =
      [simplePredict (m := 1) net (fun _ => ![x0, x1]) 0 0] ∧
    (pureTrainSample (pureOfSimple net) [x0, x1] [t]).w1 =
      (pureOfSimple (simpleTrainEpoch (m := 1) net (fun _ => ![x0, x1]) (fun _ _ => t))).w1 ∧
    (pureTrainSample (pureOfSimple net) [x0, x1] [t]).w2 =
      (pureOfSimple (simpleTrainEpoch (m := 1) net (fun _ => ![x0, x1]) (fun _ _ => t))).w2 :=
  ⟨pure_simple_forward_eq net x0 x1, pure_simple_w1_update_eq net x0 x1 t,
    pure_simple_w2_update_eq net x0 x1 t⟩

/-- Concrete equal initial weights for the counterexample: input-to-hidden
weights all 0, hidden-to-output weights all 1, biases at their initial
zeros. -/
noncomputable def cexSimpleNet : SimpleNet :=
  { weights_input_hidden := fun _ _ => 0
  , weights_hidden_output := fun _ _ => 1
  , learning_rate := 1/2 }

/-- The same weights as `cexSimpleNet`, loaded into
`simple_neural_network.py`'s `NeuralNetwork`. -/
noncomputable def cexNNWeights : NNWeights 2 4 1 :=
  { W1 := fun _ _ => 0, b1 := fun _ => 0, W2 := fun _ _ => 1, b2 := fun _ => 0 }

/-- The common concrete training input `[0, 0]`. -/
noncomputable def cexInput : Fin 1 → Fin 2 → ℝ := fun _ _ => 0

/-- C2 counterexample to the claim as stated: the three files do not
compute the same forward pass.  With equal initial weights (`cexSimpleNet`
and `cexNNWeights`) and the equal input `[0,0]`, `SimpleNeuralNetwork`
outputs `sigmoid(2)` while `NeuralNetwork` (ReLU hidden layer, biases)
outputs `1/2`, and these differ. -/
theorem three_networks_not_equivalent :
    simplePredict cexSimpleNet cexInput 0 0 ≠ (nnForward cexNNWeights cexInput).1 0 0 := by
  have hs0 : sigmoidReal 0 = 1 / 2 := by
    rw [sigmoidReal, neg_zero, Real.exp_zero]
    norm_num
  have hl : simplePredict cexSimpleNet cexInput 0 0 = sigmoidReal 2 := by
    simp only [simplePredict, simpleHidden, cexSimpleNet, cexInput,
      Fin.sum_univ_two, Fin.sum_univ_four]
    rw [show (0 : ℝ) * 0 + 0 * 0 = 0 by ring, hs0]
    norm_num
  have hclip : npClip (-500) 500 (0 : ℝ) = 0 := by
    rw [npClip, min_eq_left (by norm_num : (0:ℝ) ≤ 500),
      max_eq_right (by norm_num : (-500:ℝ) ≤ 0)]
  have hr : (nnForward cexNNWeights cexInput).1 0 0 = 1 / 2 := by
    simp only [nnForward, cexNNWeights, cexInput, nnRelu, nnSigmoid,
      Fin.sum_univ_two, Fin.sum_univ_four]
    rw [show (0 : ℝ) * 0 + 0 * 0 + 0 = 0 by ring, max_self]
    rw [show (0 : ℝ) * 1 + 0 * 1 + 0 * 1 + 0 * 1 + 0 = 0 by ring, hclip, neg_zero,
      Real.exp_zero]
    norm_num
  rw [hl, hr]
  intro h
  rw [sigmoidReal] at h
  have hexp : 0 < Real.exp (-2) := Real.exp_pos _
  rw [div_eq_div_iff (by linarith) (by norm_num : (2:ℝ) ≠ 0)] at h
  have h2 : Real.exp (-2) = 1 := by linarith
  rw [Real.exp_eq_one_iff] at h2
  norm_num at h2
